import Mathlib

/-!
Verification of the Barry MCP client/server core against its specification.

The definitions below are a shallow embedding of the Python sources:
  barry-client/src/barry_client/client.py        (BarryMCPClient)
  barry-client/src/barry_client/ollama_agent.py  (OllamaAgent)
  barry-client/src/barry_client/gemini_agent.py  (GeminiAgent)
  barry-mcp-server/src/barry_server/server.py    (tool handlers)
Pure functions are translated directly; the external MCP transport and the
model-backend APIs are represented by explicit outcome/script parameters.
-/

/-! ## Shared JSON-ish value type for tool-call argument mappings -/

/-- A JSON-style scalar value, used for tool-call argument mappings that the
orchestrator passes through opaquely. Numbers are modelled as `Int`/`Rat`. -/
inductive JVal where
  | s (v : String)
  | i (v : Int)
  | q (v : Rat)
  | b (v : Bool)
  deriving DecidableEq

/-- An argument mapping, as carried by a tool-call request (a Python dict). -/
abbrev Args := List (String × JVal)

/-! ## BarryMCPClient: transport model (client.py lines 87-118) -/

/-- One content item of a structured MCP tool result. `text` items have a
`.text` attribute; `other` stands for non-textual content (image, resource)
which has no `.text` attribute. -/
inductive ContentItem where
  | text (s : String)
  | other
  deriving DecidableEq

/-- The structured result of `session.call_tool` (mcp `CallToolResult`). -/
structure CallToolResult where
  content : List ContentItem
  deriving DecidableEq

/-- Outcome of awaiting `self.session.call_tool(...)` on the transport:
either a structured result arrives, or the await raises (transport-level
failure such as a closed stream); `e` is the raised exception's message. -/
inductive TransportOutcome where
  | ok (res : CallToolResult)
  | err (e : String)
  deriving DecidableEq

/-- The `.text` attribute of a content item, when present
(`item.text for item in result.content if hasattr(item, 'text')`). -/
def itemText : ContentItem → Option String
  | ContentItem.text s => some s
  | ContentItem.other => none

/-- Text extraction of `BarryMCPClient.call_tool` (client.py lines 104-110):
`if result.content: return "\n".join(...)` else `return "No result"`. -/
def extractResult (res : CallToolResult) : String :=
  match res.content with
  | [] => "No result"
  | l => String.intercalate "\n" (l.filterMap itemText)

/-- `BarryMCPClient.call_tool` (client.py lines 87-110). `Except.error`
models an exception raised to the caller: `RuntimeError` when no session is
stored, or the propagated transport exception (there is no try/except around
`session.call_tool`). -/
def clientCallTool (session : Option Unit) (outcome : TransportOutcome) :
    Except String String :=
  match session with
  | none => Except.error "Not connected to server. Call connect() first."
  | some _ =>
    match outcome with
    | TransportOutcome.ok res => Except.ok (extractResult res)
    | TransportOutcome.err e => Except.error e

/-! ## BarryMCPClient.disconnect (client.py lines 112-118) -/

/-- One teardown call issued by `disconnect`: `session.__aexit__` or
`stdio_context.__aexit__`. -/
inductive TeardownStep where
  | sessionExit
  | stdioExit
  deriving DecidableEq

/-- The connection-relevant attributes of a `BarryMCPClient`:
`self.session` (set by `connect`, never reset) and whether the
`stdio_context` attribute exists (`hasattr(self, 'stdio_context')`). -/
structure ClientConnState where
  session : Option Unit
  hasStdioCtx : Bool
  deriving DecidableEq

/-- `BarryMCPClient.disconnect` (client.py lines 112-118): issues
`session.__aexit__` when a session is stored and `stdio_context.__aexit__`
when that attribute exists. It mutates no attribute, so the state is
returned unchanged; the list records the teardown calls issued (the final
console print is elided). -/
def disconnect (s : ClientConnState) : ClientConnState × List TeardownStep :=
  (s, (if s.session.isSome then [TeardownStep.sessionExit] else []) ++
      (if s.hasStdioCtx then [TeardownStep.stdioExit] else []))

/-- A client on which `connect` was never called: `self.session = None` and
no `stdio_context` attribute. -/
def freshClient : ClientConnState := ⟨none, false⟩

/-- A client after a successful `connect`: a session is stored and the
`stdio_context` attribute exists. -/
def connectedClient : ClientConnState := ⟨some (), true⟩

/-! ## Barry server: dataset model (server.py) -/

/-- One deduplicated dataset row, with the columns the two tools read.
`none` models a missing value (pandas NaN). Numeric fat content is modelled
with `Rat` in place of Python floats; none of the verified claims depends on
float rounding. All columns are present in the loaded CSV, so the tools'
missing-column branches are never taken and are not modelled. -/
structure Row where
  material_code : Option String
  fat : Option Rat
  product_type : Option String
  base_type : Option String
  moulding_type : Option String
  material_description : Option String
  description : Option String
  deriving DecidableEq

/-- The `arguments` dict of a tool call, with every key the two Barry tools
ever read; `none` models an absent key. -/
structure ToolArguments where
  n : Option Int
  fat_value : Option Rat
  operator : Option String
  chocolate_type : Option String
  moulding_type : Option String
  deriving DecidableEq

/-- Python `str.lower()` on the ASCII data handled by this server
(character-wise lowering; written over the character list so that proofs
can evaluate it). -/
def strLower (s : String) : String := String.mk (s.toList.map Char.toLower)

/-- Python `str.upper()` on ASCII strings. -/
def strUpper (s : String) : String := String.mk (s.toList.map Char.toUpper)

/-- Character-list version of literal substring search. -/
def chrIsPfx : List Char → List Char → Bool
  | [], _ => true
  | _ :: _, [] => false
  | a :: pat, b :: s => a == b && chrIsPfx pat s

/-- Python `str.startswith` / pandas `.str.startswith`. -/
def strStarts (s pat : String) : Bool := chrIsPfx pat.toList s.toList

/-- Python string slicing `s[:n]` by characters. -/
def strTake (s : String) (n : Nat) : String := String.mk (s.toList.take n)

/-- Literal substring occurrence test over character lists. -/
def chrHasSub (pat : List Char) : List Char → Bool
  | [] => chrIsPfx pat []
  | c :: cs => chrIsPfx pat (c :: cs) || chrHasSub pat cs

/-- Substring containment, modelling pandas `.str.contains` with a literal
search pattern (the patterns used by the tools carry no regex
metacharacters that would change the match). -/
def strHasSub (s pat : String) : Bool := chrHasSub pat.toList s.toList

/-- Pandas `DataFrame.head(n)`: the first `n` rows for `n >= 0`, and all but
the last `|n|` rows for negative `n`. -/
def pdHead (n : Int) (l : List α) : List α :=
  if 0 ≤ n then l.take n.toNat else l.take (l.length - (-n).toNat)

/-! ### Tool 1: query_skus_by_fat (server.py lines 182-248) -/

/-- The comparison lambdas of `operator_map` (server.py lines 204-210),
applied to a row's fat value `x` and the threshold `fat_value`. -/
def fatCmp (op : String) (x fv : Rat) : Bool :=
  match op with
  | "==" => x == fv
  | "<" => decide (x < fv)
  | "<=" => decide (x ≤ fv)
  | ">" => decide (x > fv)
  | ">=" => decide (x ≥ fv)
  | _ => false

/-- Membership of `operator` in `operator_map`. -/
def opValid (op : String) : Bool :=
  match op with
  | "==" => true
  | "<" => true
  | "<=" => true
  | ">" => true
  | ">=" => true
  | _ => false

/-- The row filter `df["Fat"].apply(operator_map[operator]) &
df["Material_Code"].notna()`. A NaN fat value compares false under every
operator, matching Python float-NaN comparisons. -/
def skuPred (op : String) (fv : Rat) (r : Row) : Bool :=
  (match r.fat with
   | some x => fatCmp op x fv
   | none => false) && r.material_code.isSome

/-- The filtered dataset of `query_skus_by_fat` (server.py line 216). -/
def skuFiltered (op : String) (fv : Rat) (rows : List Row) : List Row :=
  rows.filter (skuPred op fv)

/-- `results = filtered.head(n)` (server.py line 219). -/
def skuListed (n : Int) (op : String) (fv : Rat) (rows : List Row) : List Row :=
  pdHead n (skuFiltered op fv rows)

/-- The zero-results message of `query_skus_by_fat` (server.py line 224). -/
def skuNoResultText (op : String) (fv : Rat) : String :=
  "🔍 No SKUs found where Fat " ++ op ++ " " ++ toString fv ++ "g"

/-- The header line (server.py line 228); its count is the length of the
`results` list passed to the formatter. -/
def skuHeaderLine (op : String) (fv : Rat) (k : Nat) : String :=
  "📊 Found " ++ toString k ++ " SKU(s) where Fat " ++ op ++ " " ++
    toString fv ++ "g:\n"

/-- Rendering of a possibly-NaN string cell inside an f-string
(`f"{value}"` prints `nan` for a float NaN). -/
def cellStr (v : Option String) : String :=
  match v with
  | some s => s
  | none => "nan"

/-- The optional full-description lines (server.py lines 239-245):
skipped for `"N/A"` or NaN, truncated past 500 characters. -/
def descLines (v : Option String) : List String :=
  match v with
  | none => []
  | some d =>
    if d = "N/A" then []
    else if d.length > 500 then ["    ℹ️  " ++ (strTake d 497 ++ "...")]
    else ["    ℹ️  " ++ d]

/-- The lines appended for one SKU row (server.py lines 230-246). -/
def skuEntryLines (r : Row) : List String :=
  ["  • **" ++ cellStr r.material_code ++ "** (Fat: " ++
      (match r.fat with
       | some x => toString x
       | none => "nan") ++ "g)",
   "    📝 " ++ cellStr r.material_description] ++
  descLines r.description ++ [""]

/-- The full non-empty report of `query_skus_by_fat`:
`"\n".join(lines)` with the header built from `results.length`. -/
def skuReportText (op : String) (fv : Rat) (results : List Row) : String :=
  String.intercalate "\n"
    (skuHeaderLine op fv results.length :: results.flatMap skuEntryLines)

/-- `query_skus_by_fat` (server.py lines 182-248). `Except.error` models an
exception escaping the tool body (caught by the `call_tool` dispatcher);
the missing required key `fat_value` raises `KeyError`. -/
def querySkusByFat (rows : List Row) (args : ToolArguments) :
    Except String (List String) :=
  let n : Int := args.n.getD 10
  match args.fat_value with
  | none => Except.error "KeyError: fat_value"
  | some fv =>
    let op := args.operator.getD ">"
    if opValid op then
      let results := skuListed n op fv rows
      if results.isEmpty then Except.ok [skuNoResultText op fv]
      else Except.ok [skuReportText op fv results]
    else Except.ok ["❌ Invalid operator: " ++ op]

/-! ### Tool 2: query_chocolate_products (server.py lines 251-344) -/

/-- The `prefix_map` from chocolate type to Material_Code prefix
(server.py lines 279-283). -/
def pfxMap : List (String × String) :=
  [("Dark", "CHD-"), ("Milk", "CHM-"), ("White", "CHW-")]

/-- Step 1 (server.py lines 290-296): Product_Type contains "chocolate" and
is either exactly "chocolate" (lowercased) or contains "< 5% veg fat"
case-insensitively; NaN fails (`na=False`). -/
def chocoProductTypeOk (r : Row) : Bool :=
  match r.product_type with
  | none => false
  | some pt =>
    strHasSub (strLower pt) "chocolate" &&
      (strLower pt == "chocolate" || strHasSub (strLower pt) "< 5% veg fat")

/-- Step 2 (server.py line 299): Base_Type lowercased equals the lowercased
chocolate type; NaN fails. -/
def chocoBaseTypeOk (ct : String) (r : Row) : Bool :=
  match r.base_type with
  | none => false
  | some bt => strLower bt == strLower ct

/-- Step 3 (server.py line 302): Moulding_Type lowercased contains the
(already lowercased) search term; NaN fails (`na=False`). -/
def chocoMouldingOk (mt : String) (r : Row) : Bool :=
  match r.moulding_type with
  | none => false
  | some m => strHasSub (strLower m) mt

/-- Step 4 (server.py line 305): Material_Code starts with the expected
prefix; NaN fails (`na=False`). -/
def chocoCodeOk (pfx : String) (r : Row) : Bool :=
  match r.material_code with
  | none => false
  | some mc => strStarts mc pfx

/-- The four filter steps applied in order (server.py lines 287-305). -/
def chocoFiltered (ct mt pfx : String) (rows : List Row) : List Row :=
  ((((rows.filter chocoProductTypeOk).filter
      (chocoBaseTypeOk ct)).filter
      (chocoMouldingOk mt)).filter
      (chocoCodeOk pfx))

/-- `results = filtered.head(n)` (server.py line 308). -/
def chocoListed (n : Int) (ct mt pfx : String) (rows : List Row) : List Row :=
  pdHead n (chocoFiltered ct mt pfx rows)

/-- The per-entry validation mark (server.py line 329):
`"✓" if material_code.startswith(expected_prefix) else "✗"`. A NaN code
cannot reach this point (step 4 filtered it); it is rendered as the failure
mark here, where the Python would raise `AttributeError`. -/
def chocoMark (pfx : String) (r : Row) : String :=
  match r.material_code with
  | some mc => if strStarts mc pfx then "✓" else "✗"
  | none => "✗"

/-- The zero-results message (server.py line 313). -/
def chocoNoResultText (ct mt : String) : String :=
  "🔍 No " ++ ct ++ " chocolate products found with moulding type \x27" ++
    mt ++ "\x27"

/-- The header line (server.py line 318), counting the listed results. -/
def chocoHeaderLine (ct mt : String) (k : Nat) : String :=
  "🍫 Found " ++ toString k ++ " " ++ ct ++
    " chocolate product(s) with moulding type \x27" ++ mt ++ "\x27:\n"

/-- The lines appended for one product row (server.py lines 321-342). -/
def chocoEntryLines (pfx : String) (r : Row) : List String :=
  ["  " ++ chocoMark pfx r ++ " **" ++ cellStr r.material_code ++ "**",
   "    📝 " ++ cellStr r.material_description,
   "    Base: " ++ cellStr r.base_type ++ " | Moulding: " ++
     cellStr r.moulding_type] ++
  descLines r.description ++ [""]

/-- The full non-empty report of `query_chocolate_products`. -/
def chocoReportText (ct mt pfx : String) (results : List Row) : String :=
  String.intercalate "\n"
    (chocoHeaderLine ct mt results.length ::
      results.flatMap (chocoEntryLines pfx))

/-- `query_chocolate_products` (server.py lines 251-344). Missing required
keys raise `KeyError`, as does a chocolate type outside `prefix_map`. -/
def queryChocolateProducts (rows : List Row) (args : ToolArguments) :
    Except String (List String) :=
  let n : Int := args.n.getD 5
  match args.chocolate_type with
  | none => Except.error "KeyError: chocolate_type"
  | some ct =>
    match args.moulding_type with
    | none => Except.error "KeyError: moulding_type"
    | some mt0 =>
      let mt := strLower mt0
      match pfxMap.lookup ct with
      | none => Except.error ("KeyError: " ++ ct)
      | some pfx =>
        let results := chocoListed n ct mt pfx rows
        if results.isEmpty then Except.ok [chocoNoResultText ct mt]
        else Except.ok [chocoReportText ct mt pfx results]

/-! ### Server dispatcher: call_tool (server.py lines 164-179) -/

/-- The `@app.call_tool()` handler: reports a missing dataset, dispatches on
the tool name, and wraps any exception escaping a tool body into a textual
`"❌ Error: ..."` payload, so the remote side never sees a raised tool
error. -/
def serverCallTool (df? : Option (List Row)) (name : String)
    (args : ToolArguments) : List String :=
  match df? with
  | none => ["❌ Error: Dataset not loaded. Please restart the server."]
  | some rows =>
    let r :=
      if name = "query_skus_by_fat" then querySkusByFat rows args
      else if name = "query_chocolate_products" then
        queryChocolateProducts rows args
      else Except.ok ["❌ Unknown tool: " ++ name]
    match r with
    | Except.ok l => l
    | Except.error e => ["❌ Error: " ++ e]

/-! ## Tool descriptors and schema translation
(server.py lines 106-161, client.py lines 120-138,
gemini_agent.py lines 43-70, ollama_agent.py lines 47-63) -/

/-- One parameter entry of an MCP tool `inputSchema.properties` dict;
`none` models an absent key. -/
structure PropSchema where
  type? : Option String
  description? : Option String
  enum? : Option (List String)
  minimum? : Option Int
  default? : Option JVal
  deriving DecidableEq

/-- An MCP tool `inputSchema`: a JSON-schema object with ordered properties
and an optional required-name list. -/
structure InputSchema where
  stype : String
  properties : List (String × PropSchema)
  required? : Option (List String)
  deriving DecidableEq

/-- An MCP `Tool` as returned by the server's `list_tools`. -/
structure MCPTool where
  name : String
  description : String
  inputSchema : InputSchema
  deriving DecidableEq

/-- The dict produced per tool by `BarryMCPClient.get_tools_schema`
(client.py lines 129-136). -/
structure ToolSchema where
  name : String
  description : String
  parameters : InputSchema
  deriving DecidableEq

/-- `BarryMCPClient.get_tools_schema` (client.py lines 120-138): passes
name, description and the raw `inputSchema` through. -/
def getToolsSchema (tools : List MCPTool) : List ToolSchema :=
  tools.map fun t => ⟨t.name, t.description, t.inputSchema⟩

/-- The `google.genai` `types.Type` enumeration used by
`_convert_tools_to_gemini`. -/
inductive GType where
  | TYPE_UNSPECIFIED
  | STRING
  | NUMBER
  | INTEGER
  | BOOLEAN
  | ARRAY
  | OBJECT
  deriving DecidableEq

/-- The `types.Type[prop_type]` member lookup; an unknown name raises
`KeyError` (`none`). -/
def typeOfName : String → Option GType
  | "TYPE_UNSPECIFIED" => some GType.TYPE_UNSPECIFIED
  | "STRING" => some GType.STRING
  | "NUMBER" => some GType.NUMBER
  | "INTEGER" => some GType.INTEGER
  | "BOOLEAN" => some GType.BOOLEAN
  | "ARRAY" => some GType.ARRAY
  | "OBJECT" => some GType.OBJECT
  | _ => none

/-- The per-property `types.Schema` built by `_convert_tools_to_gemini`
(gemini_agent.py lines 52-56); `genum = none` means the enum field is not
set on the declaration at all. -/
structure GeminiPropSchema where
  gtype : GType
  gdescription : String
  genum : Option (List String)
  deriving DecidableEq

/-- A `types.FunctionDeclaration` (gemini_agent.py lines 59-67); the
parameters object always has type OBJECT. -/
structure GeminiFunctionDecl where
  name : String
  description : String
  properties : List (String × GeminiPropSchema)
  required : List String
  deriving DecidableEq

/-- The Python truthiness guard
`prop_schema.get("enum") if prop_schema.get("enum") else None`:
an absent or empty enum list becomes `None`. -/
def pyTruthyEnum : Option (List String) → Option (List String)
  | some (a :: l) => some (a :: l)
  | _ => none

/-- Conversion of one property (gemini_agent.py lines 50-56):
`prop_schema.get("type", "string").upper()` looked up in `types.Type`,
description defaulted to `""`, enum guarded by truthiness. -/
def convertPropToGemini (ps : PropSchema) : Option GeminiPropSchema :=
  (typeOfName (strUpper (ps.type?.getD "string"))).map fun gt =>
    ⟨gt, ps.description?.getD "", pyTruthyEnum ps.enum?⟩

/-- `GeminiAgent._convert_tools_to_gemini` for one tool (gemini_agent.py
lines 47-68); `none` models the `KeyError` raised on an unsupported type. -/
def convertToolToGemini (t : ToolSchema) : Option GeminiFunctionDecl :=
  (t.parameters.properties.mapM fun p =>
      (convertPropToGemini p.2).map fun g => (p.1, g)).map
    fun props => ⟨t.name, t.description, props, t.parameters.required?.getD []⟩

/-- The `function` object of an Ollama tool declaration. -/
structure OllamaFunction where
  name : String
  description : String
  parameters : InputSchema
  deriving DecidableEq

/-- An Ollama tool declaration (ollama_agent.py lines 53-60). -/
structure OllamaTool where
  ttype : String
  function : OllamaFunction
  deriving DecidableEq

/-- `OllamaAgent._convert_tools_to_ollama` for one tool (ollama_agent.py
lines 47-63): wraps the schema unchanged. -/
def convertToolToOllama (t : ToolSchema) : OllamaTool :=
  ⟨"function", ⟨t.name, t.description, t.parameters⟩⟩

/-- The `query_skus_by_fat` descriptor as declared by the server's
`list_tools` (server.py lines 110-135). -/
def skuToolMCP : MCPTool :=
  { name := "query_skus_by_fat",
    description := "Query Material_Code (SKUs) based on fat content with comparison operators (==, <, <=, >, >=)",
    inputSchema :=
      { stype := "object",
        properties :=
          [("n", { type? := some "integer",
                   description? := some "Number of results to return",
                   enum? := none, minimum? := some 1,
                   default? := some (JVal.i 10) }),
           ("fat_value", { type? := some "number",
                           description? := some "Fat content threshold value (in grams)",
                           enum? := none, minimum? := none,
                           default? := none }),
           ("operator", { type? := some "string",
                          description? := some "Comparison operator to use",
                          enum? := some ["==", "<", "<=", ">", ">="],
                          minimum? := none,
                          default? := some (JVal.s ">") })],
        required? := some ["fat_value"] } }

/-- The `query_chocolate_products` descriptor as declared by the server's
`list_tools` (server.py lines 136-160). -/
def chocoToolMCP : MCPTool :=
  { name := "query_chocolate_products",
    description := "Search for chocolate products by type (Dark/Milk/White) and moulding type (e.g., callets). Validates Material_Code prefix.",
    inputSchema :=
      { stype := "object",
        properties :=
          [("n", { type? := some "integer",
                   description? := some "Number of results to return",
                   enum? := none, minimum? := some 1,
                   default? := some (JVal.i 5) }),
           ("chocolate_type", { type? := some "string",
                                description? := some "Type of chocolate base",
                                enum? := some ["Dark", "Milk", "White"],
                                minimum? := none, default? := none }),
           ("moulding_type", { type? := some "string",
                               description? := some "Moulding type to search for - uses flexible string matching (e.g., \x27callets\x27, \x27chips\x27, \x27blocks\x27, \x27drops\x27, \x27bars\x27, etc.)",
                               enum? := none, minimum? := none,
                               default? := none })],
        required? := some ["chocolate_type", "moulding_type"] } }

/-- The `query_skus_by_fat` descriptor after `get_tools_schema`. -/
def skuSchema : ToolSchema :=
  ⟨skuToolMCP.name, skuToolMCP.description, skuToolMCP.inputSchema⟩

/-- The `n` parameter descriptor of `query_skus_by_fat`, which carries no
enum constraint. -/
def skuNProp : PropSchema :=
  { type? := some "integer",
    description? := some "Number of results to return",
    enum? := none, minimum? := some 1, default? := some (JVal.i 10) }

/-- The Gemini declaration that `_convert_tools_to_gemini` produces for
`query_skus_by_fat`. -/
def skuGeminiDecl : GeminiFunctionDecl :=
  { name := "query_skus_by_fat",
    description := "Query Material_Code (SKUs) based on fat content with comparison operators (==, <, <=, >, >=)",
    properties :=
      [("n", ⟨GType.INTEGER, "Number of results to return", none⟩),
       ("fat_value", ⟨GType.NUMBER, "Fat content threshold value (in grams)", none⟩),
       ("operator", ⟨GType.STRING, "Comparison operator to use",
          some ["==", "<", "<=", ">", ">="]⟩)],
    required := ["fat_value"] }

/-! ## OllamaAgent conversation loop (ollama_agent.py lines 65-140)

The model backend (`self.client.chat`) is a black box per spec section 6:
it is represented by a script, the list of responses it returns to the
successive queries of one `send_message` call. The MCP tool execution
(`self.mcp_client.call_tool`) is a function returning either a result text
or, via `Except.error`, a raised exception's message. -/

/-- A conversation message role. -/
inductive Role where
  | user
  | assistant
  | tool
  deriving DecidableEq

/-- One tool-call request attached to an assistant message. -/
structure ToolCall where
  name : String
  args : Args
  deriving DecidableEq

/-- A conversation message as stored in `self.messages`: a role, a content
text, and (for assistant messages produced by the model) the attached
tool-call list; `[]` models an absent or empty `tool_calls` key. -/
structure Msg where
  role : Role
  content : String
  tool_calls : List ToolCall
  deriving DecidableEq

/-- One response of `self.client.chat`, carrying its `message` dict. -/
structure Resp where
  message : Msg
  deriving DecidableEq

/-- The user message appended by `send_message` (ollama_agent.py
lines 78-81). -/
def mkUser (text : String) : Msg := ⟨Role.user, text, []⟩

/-- The tool message appended for one executed call (ollama_agent.py
lines 104-124): the result text on success, `"Error: ..."` when
`call_tool` raised (the try/except of lines 104-124). -/
def renderToolResult (exec : String → Args → Except String String)
    (tc : ToolCall) : Msg :=
  match exec tc.name tc.args with
  | Except.ok r => ⟨Role.tool, r, []⟩
  | Except.error e => ⟨Role.tool, "Error: " ++ e, []⟩

/-- The per-call loop body (ollama_agent.py lines 96-124): appends one tool
message per requested call, in order. -/
def processCalls (exec : String → Args → Except String String)
    (msgs : List Msg) (calls : List ToolCall) : List Msg :=
  calls.foldl (fun ms tc => ms ++ [renderToolResult exec tc]) msgs

/-- The `while response.tool_calls:` loop (ollama_agent.py lines 91-134),
given the response being examined, the remaining backend script, and the
accumulated `self.messages`. Returns the final text and message list
(`none` when the script is exhausted while the loop still needs a
response), paired with the message list observed by each issued model
query. -/
def sendLoop (exec : String → Args → Except String String) :
    List Resp → List Msg → Msg →
    Option (String × List Msg) × List (List Msg)
  | script, msgs, rm =>
    if rm.tool_calls.isEmpty then
      (some (rm.content, msgs ++ [rm]), [])
    else
      let msgs1 := processCalls exec (msgs ++ [rm]) rm.tool_calls
      match script with
      | [] => (none, [msgs1])
      | r :: rest =>
        let p := sendLoop exec rest msgs1 r.message
        (p.1, msgs1 :: p.2)

/-- `OllamaAgent.send_message` (ollama_agent.py lines 65-140): appends the
user message, queries the backend (first script element), and runs the
tool-call loop. The second component lists the `self.messages` value at
each `self.client.chat` call. -/
def ollamaSendMessage (exec : String → Args → Except String String)
    (script : List Resp) (history : List Msg) (text : String) :
    Option (String × List Msg) × List (List Msg) :=
  let msgs0 := history ++ [mkUser text]
  match script with
  | [] => (none, [msgs0])
  | r :: rest =>
    let p := sendLoop exec rest msgs0 r.message
    (p.1, msgs0 :: p.2)

/-! ## GeminiAgent conversation loop (gemini_agent.py lines 72-135)

The `google.genai` chat object is external; per spec sections 2 and 6 it is
a black box that records the conversation and answers each query. Its
per-call history (one user entry, one model entry per `chat.send_message`)
is made explicit, and its responses come from a script as above. -/

/-- A role inside the Gemini chat history. -/
inductive GRole where
  | user
  | model
  deriving DecidableEq

/-- One part of a Gemini response: a structured function call or text. -/
inductive GPart where
  | functionCall (name : String) (args : Args)
  | text (s : String)
  deriving DecidableEq

/-- One Gemini response: `response.candidates[0].content.parts`. -/
structure GResp where
  parts : List GPart
  deriving DecidableEq

/-- One entry of the Gemini chat history. -/
structure GMsg where
  role : GRole
  parts : List GPart
  deriving DecidableEq

/-- The user entry recorded for a sent text. -/
def gUser (text : String) : GMsg := ⟨GRole.user, [GPart.text text]⟩

/-- The model entry recorded for a response. -/
def gModel (ps : List GPart) : GMsg := ⟨GRole.model, ps⟩

/-- `response.text`: the concatenated text parts of a response. -/
def GResp.rtext (r : GResp) : String :=
  String.join (r.parts.filterMap fun p =>
    match p with
    | GPart.text s => some s
    | GPart.functionCall _ _ => none)

/-- Whether the first part of a response is a function call — the only
thing the loop condition of gemini_agent.py lines 97-101 inspects. -/
def hasCallHead (r : GResp) : Bool :=
  match r.parts with
  | GPart.functionCall _ _ :: _ => true
  | _ => false

/-- The framing of a successful tool result sent back to the model
(gemini_agent.py lines 118-120). -/
def geminiFrame (name result : String) : String :=
  "Here is the data from the " ++ name ++ " function:\n\n" ++ result ++
    "\n\nPlease format this nicely for the user."

/-- The `while response.candidates[0].content.parts:` loop (gemini_agent.py
lines 97-129): inspects the first part; a function call is executed (with
the try/except of lines 108-126 turning a raised error into an error text)
and the framed text is sent back; anything else ends the loop with
`response.text`. -/
def geminiLoop (exec : String → Args → Except String String) :
    List GResp → List GMsg → GResp → Option (String × List GMsg)
  | script, hist, resp =>
    match resp.parts with
    | [] => some (resp.rtext, hist)
    | GPart.text _ :: _ => some (resp.rtext, hist)
    | GPart.functionCall nm as :: _ =>
      let outTxt :=
        match exec nm as with
        | Except.ok r => geminiFrame nm r
        | Except.error e => "Error calling function " ++ nm ++ ": " ++ e
      match script with
      | [] => none
      | r2 :: rest =>
        geminiLoop exec rest (hist ++ [gUser outTxt, gModel r2.parts]) r2

/-- `GeminiAgent.send_message` (gemini_agent.py lines 72-135): creates a
fresh chat, sends the user text, and runs the function-call loop. Returns
the final text with the chat history it was produced from. -/
def geminiSendMessage (exec : String → Args → Except String String)
    (script : List GResp) (message : String) :
    Option (String × List GMsg) :=
  match script with
  | [] => none
  | r :: rest =>
    geminiLoop exec rest [gUser message, gModel r.parts] r

/-! ## The no-dangling-tool-call invariant of the Ollama loop -/

/-- A message list is resolved when every message carrying tool-call
requests is immediately followed by exactly one tool-role message per
request, in order, each carrying that call's result text or error
rendering (messages without requests impose nothing: the block is empty). -/
def Resolved (exec : String → Args → Except String String)
    (msgs : List Msg) : Prop :=
  ∀ i m, msgs.get? i = some m →
    (msgs.drop (i + 1)).take m.tool_calls.length =
      m.tool_calls.map (renderToolResult exec)

/-- Executable check of `Resolved` at one index. -/
def msgResolvedAt (exec : String → Args → Except String String)
    (msgs : List Msg) (i : Nat) : Bool :=
  match msgs.get? i with
  | some m =>
    decide ((msgs.drop (i + 1)).take m.tool_calls.length =
      m.tool_calls.map (renderToolResult exec))
  | none => true

/-- Executable check of `Resolved` over a whole message list. -/
def resolvedCheck (exec : String → Args → Except String String)
    (msgs : List Msg) : Bool :=
  (List.range msgs.length).all (msgResolvedAt exec msgs)

/-- Executable statement that, in one `OllamaAgent.send_message` run, the
message list observed by every issued model query — and the final message
list — is resolved. -/
def queryStatesCheck (exec : String → Args → Except String String)
    (script : List Resp) (history : List Msg) (text : String) : Bool :=
  (ollamaSendMessage exec script history text).2.all (resolvedCheck exec) &&
    (match (ollamaSendMessage exec script history text).1 with
     | some pr => resolvedCheck exec pr.2
     | none => true)

/-! ## Concrete inputs used by the witness theorems -/

/-- An arguments dict with every key absent. -/
def noArgs : ToolArguments := ⟨none, none, none, none, none⟩

/-- A result whose non-empty content mixes textual and non-textual parts. -/
def mixedRes : CallToolResult :=
  ⟨[ContentItem.text "a", ContentItem.other, ContentItem.text "b"]⟩

/-- A dataset row that passes every filter of both tools. -/
def demoRow (code : String) (f : Rat) : Row :=
  ⟨some code, some f, some "Chocolate", some "Dark", some "Callets",
   some "desc", none⟩

/-- A three-row demo dataset of dark chocolate callets. -/
def demoRows : List Row :=
  [demoRow "CHD-1" 35, demoRow "CHD-2" 40, demoRow "CHD-3" 45]

/-- Arguments requesting at most 2 SKUs with fat above 30. -/
def skuArgs2 : ToolArguments := ⟨some 2, some 30, some ">", none, none⟩

/-- Per-row success condition for the chocolate report: the listed code
carries the expected prefix and the entry mark is the success mark. -/
def chocoEntryValid (pfx : String) (r : Row) : Bool :=
  chocoCodeOk pfx r && (chocoMark pfx r == "✓")

/-- A backend final answer with no tool call attached. -/
def demoFinalResp : Resp := ⟨⟨Role.assistant, "final answer", []⟩⟩

/-- A backend response requesting one `query_skus_by_fat` call. -/
def demoCallResp : Resp :=
  ⟨⟨Role.assistant, "", [⟨"query_skus_by_fat", [("n", JVal.i 2)]⟩]⟩⟩

/-- A backend response requesting one call of an unknown tool. -/
def demoBadCallResp : Resp :=
  ⟨⟨Role.assistant, "", [⟨"badtool", []⟩]⟩⟩

/-- A tool executor that answers `query_skus_by_fat` and raises on any
other tool. -/
def demoExec : String → Args → Except String String := fun nm _ =>
  if nm = "query_skus_by_fat" then Except.ok "data" else Except.error "bad tool"

/-- A Gemini final answer response. -/
def demoGFinal : GResp := ⟨[GPart.text "gemini answer"]⟩

/-- A Gemini response requesting one call of an unknown tool. -/
def demoGCall : GResp := ⟨[GPart.functionCall "badtool" []]⟩

/-! # Theorems -/

/-! ## C1: error surfacing of ToolSession.invoke -/

/-- C1 counterexample: on a connected session, a transport-level failure of
`session.call_tool` is not wrapped by `BarryMCPClient.call_tool`; it
propagates to the caller as a raised exception instead of a textual error
payload, refuting the claim that invoke never raises. -/
theorem call_tool_transport_error_escapes :
    clientCallTool (some ()) (TransportOutcome.err "connection closed") =
      Except.error "connection closed" ∧
    (clientCallTool (some ())
      (TransportOutcome.err "connection closed")).isOk = false :=
  ⟨rfl, rfl⟩

/-- C1 (amended): on a connected session, whenever the transport delivers a
structured result, `call_tool` returns normally with the extracted text; a
remote-side tool failure is wrapped by the server's `call_tool` handler
into a textual `"❌ Error: ..."` payload, which the client then returns as
an ordinary result string. Transport-level failures, by contrast, raise
(see the counterexample). -/
theorem call_tool_remote_errors_become_text (res : CallToolResult)
    (rows : List Row) (args : ToolArguments) (e : String)
    (h : querySkusByFat rows args = Except.error e) :
    clientCallTool (some ()) (TransportOutcome.ok res) =
      Except.ok (extractResult res) ∧
    serverCallTool (some rows) "query_skus_by_fat" args =
      ["❌ Error: " ++ e] ∧
    clientCallTool (some ()) (TransportOutcome.ok
        ⟨(serverCallTool (some rows) "query_skus_by_fat" args).map
          ContentItem.text⟩) =
      Except.ok ("❌ Error: " ++ e) := by
  have h2 : serverCallTool (some rows) "query_skus_by_fat" args =
      ["❌ Error: " ++ e] := by
    simp [serverCallTool, h]
  refine ⟨rfl, h2, ?_⟩
  rw [h2]
  rfl

/-- C1 witness: a concrete remote-side failure (missing required argument
`fat_value`) reaches the caller as the textual payload
`"❌ Error: KeyError: fat_value"`, while delivery of a structured result
returns normally. -/
theorem call_tool_remote_errors_become_text_witness :
    querySkusByFat [] noArgs = Except.error "KeyError: fat_value" ∧
    clientCallTool (some ()) (TransportOutcome.ok mixedRes) =
      Except.ok (extractResult mixedRes) ∧
    serverCallTool (some []) "query_skus_by_fat" noArgs =
      ["❌ Error: " ++ "KeyError: fat_value"] ∧
    clientCallTool (some ()) (TransportOutcome.ok
        ⟨(serverCallTool (some []) "query_skus_by_fat" noArgs).map
          ContentItem.text⟩) =
      Except.ok ("❌ Error: " ++ "KeyError: fat_value") := by
  have h := call_tool_remote_errors_become_text mixedRes [] noArgs
    "KeyError: fat_value" rfl
  exact ⟨rfl, h.1, h.2.1, h.2.2⟩

/-! ## C2: idempotence of disconnect -/

/-- C2 counterexample: after a completed `disconnect`, a second
`disconnect` issues the same two teardown calls again (the method never
clears `self.session` or `self.stdio_context`), so it is not free of
observable effect. -/
theorem disconnect_second_call_reissues_teardown :
    (disconnect (disconnect connectedClient).1).2 =
      [TeardownStep.sessionExit, TeardownStep.stdioExit] ∧
    (disconnect (disconnect connectedClient).1).2.isEmpty = false :=
  ⟨rfl, rfl⟩

/-- C2 (amended): `disconnect()` on a never-connected session is a no-op
(no teardown call, state unchanged, no exception). On any session the
stored attributes are left untouched, which is precisely why a second
`disconnect` after a completed one repeats the teardown calls instead of
being a no-op. -/
theorem disconnect_state_preserved_fresh_noop (s t : ClientConnState)
    (h1 : t.session = none) (h2 : t.hasStdioCtx = false) :
    (disconnect s).1 = s ∧ disconnect t = (t, []) := by
  refine ⟨rfl, ?_⟩
  simp [disconnect, h1, h2]

/-- C2 witness: the never-connected client is a concrete no-op input, and
the connected client's state survives `disconnect` unchanged. -/
theorem disconnect_state_preserved_fresh_noop_witness :
    freshClient.session = none ∧ freshClient.hasStdioCtx = false ∧
    (disconnect connectedClient).1 = connectedClient ∧
    disconnect freshClient = (freshClient, []) :=
  ⟨rfl, rfl,
   (disconnect_state_preserved_fresh_noop connectedClient freshClient rfl rfl).1,
   (disconnect_state_preserved_fresh_noop connectedClient freshClient rfl rfl).2⟩

/-! ## C6: text extraction of ToolSession.invoke -/

/-- C6 counterexample: a structured result with non-empty content but no
textual part makes `call_tool` return the empty string, not the sentinel
`"No result"`, refuting the claim that the sentinel covers every result
without textual parts. -/
theorem call_tool_nontext_result_empty_string :
    clientCallTool (some ())
      (TransportOutcome.ok ⟨[ContentItem.other]⟩) = Except.ok "" ∧
    (("" == "No result") = false) :=
  ⟨rfl, rfl⟩

/-- C6 (amended): on a connected session with a delivered result,
`call_tool` returns the newline-join of the textual parts whenever the
content list is non-empty (which is the empty string when none of the
parts is textual), and returns the sentinel `"No result"` exactly when the
content list is empty. -/
theorem call_tool_text_join_and_sentinel (res : CallToolResult) :
    clientCallTool (some ()) (TransportOutcome.ok res) =
      Except.ok (extractResult res) ∧
    (res.content = [] → extractResult res = "No result") ∧
    (res.content ≠ [] →
      extractResult res =
        String.intercalate "\n" (res.content.filterMap itemText)) := by
  refine ⟨rfl, fun h => by simp [extractResult, h], fun h => ?_⟩
  cases hc : res.content with
  | nil => exact absurd hc h
  | cons a l => simp [extractResult, hc]

/-- C6 witness: a mixed result joins exactly its textual parts with
newlines. -/
theorem call_tool_text_join_and_sentinel_witness :
    clientCallTool (some ()) (TransportOutcome.ok mixedRes) =
      Except.ok (extractResult mixedRes) ∧
    extractResult mixedRes =
      String.intercalate "\n" (mixedRes.content.filterMap itemText) :=
  ⟨(call_tool_text_join_and_sentinel mixedRes).1,
   (call_tool_text_join_and_sentinel mixedRes).2.2 (by decide)⟩

/-! ## C3: a no-tool-call turn -/

/-- C3: for a turn in which the backend's first response carries no
tool-call request, `send_message` returns exactly that response's text and
the conversation state grows by exactly two messages — the user message
with the sent text followed by the assistant response message — in both
the Ollama variant (explicit `self.messages`) and the Gemini variant (the
per-call chat history). -/
theorem send_message_no_tool_call
    (exec : String → Args → Except String String) (r : Resp)
    (rest : List Resp) (history : List Msg) (text : String)
    (gexec : String → Args → Except String String) (g : GResp)
    (grest : List GResp) (gm : String)
    (h1 : r.message.tool_calls = []) (h2 : r.message.role = Role.assistant)
    (h3 : hasCallHead g = false) :
    ollamaSendMessage exec (r :: rest) history text =
      (some (r.message.content, history ++ [mkUser text, r.message]),
       [history ++ [mkUser text]]) ∧
    geminiSendMessage gexec (g :: grest) gm =
      some (g.rtext, [gUser gm, gModel g.parts]) := by
  constructor
  · simp [ollamaSendMessage, sendLoop, h1]
  · obtain ⟨parts⟩ := g
    cases parts with
    | nil => simp [geminiSendMessage, geminiLoop]
    | cons p ps =>
      cases p with
      | text s => simp [geminiSendMessage, geminiLoop]
      | functionCall nm as => simp [hasCallHead] at h3

/-- C3 witness: a concrete final-answer turn for both backends. -/
theorem send_message_no_tool_call_witness :
    demoFinalResp.message.tool_calls = [] ∧
    demoFinalResp.message.role = Role.assistant ∧
    hasCallHead demoGFinal = false ∧
    ollamaSendMessage demoExec [demoFinalResp] [] "hi" =
      (some (demoFinalResp.message.content,
        [] ++ [mkUser "hi", demoFinalResp.message]),
       [[] ++ [mkUser "hi"]]) ∧
    geminiSendMessage demoExec [demoGFinal] "hi" =
      some (demoGFinal.rtext, [gUser "hi", gModel demoGFinal.parts]) := by
  have h := send_message_no_tool_call demoExec demoFinalResp [] [] "hi"
    demoExec demoGFinal [] "hi" rfl rfl rfl
  exact ⟨rfl, rfl, rfl, h.1, h.2⟩

/-! ## C7: recovery from a failing tool invocation -/

/-- C7: when a requested tool invocation raises, the error does not
propagate out of `send_message`: the loop catches it, appends a result
message whose text carries the error indication (`"Error: ..."` in the
Ollama variant, `"Error calling function ...: ..."` sent into the Gemini
chat), and re-queries the model, which here answers with the second
scripted response exactly as after a normal result. -/
theorem tool_error_recovered_in_loop
    (exec : String → Args → Except String String) (tc : ToolCall)
    (e : String) (r1 r2 : Resp) (history : List Msg) (text : String)
    (gexec : String → Args → Except String String) (nm : String)
    (as : Args) (ps : List GPart) (g1 g2 : GResp) (ge gm : String)
    (h1 : r1.message.tool_calls = [tc])
    (h2 : exec tc.name tc.args = Except.error e)
    (h3 : r2.message.tool_calls = [])
    (h4 : g1.parts = GPart.functionCall nm as :: ps)
    (h5 : gexec nm as = Except.error ge)
    (h6 : hasCallHead g2 = false) :
    ollamaSendMessage exec [r1, r2] history text =
      (some (r2.message.content,
         history ++ [mkUser text, r1.message,
           ⟨Role.tool, "Error: " ++ e, []⟩, r2.message]),
       [history ++ [mkUser text],
        history ++ [mkUser text, r1.message,
          ⟨Role.tool, "Error: " ++ e, []⟩]]) ∧
    geminiSendMessage gexec [g1, g2] gm =
      some (g2.rtext,
        [gUser gm, gModel g1.parts,
         gUser ("Error calling function " ++ nm ++ ": " ++ ge),
         gModel g2.parts]) := by
  constructor
  · simp [ollamaSendMessage, sendLoop, processCalls, renderToolResult,
      h1, h2, h3]
  · obtain ⟨g1parts⟩ := g1
    simp only at h4
    subst h4
    obtain ⟨g2parts⟩ := g2
    cases g2parts with
    | nil => simp [geminiSendMessage, geminiLoop, h5]
    | cons p ps2 =>
      cases p with
      | text s => simp [geminiSendMessage, geminiLoop, h5]
      | functionCall nm2 as2 => simp [hasCallHead] at h6

/-- C7 witness: a concrete failing tool call (unknown tool) is rendered as
an error message in the conversation and the loop proceeds to the final
answer for both backends. -/
theorem tool_error_recovered_in_loop_witness :
    demoBadCallResp.message.tool_calls = [⟨"badtool", []⟩] ∧
    demoExec "badtool" [] = Except.error "bad tool" ∧
    demoFinalResp.message.tool_calls = [] ∧
    demoGCall.parts = GPart.functionCall "badtool" [] :: [] ∧
    hasCallHead demoGFinal = false ∧
    ollamaSendMessage demoExec [demoBadCallResp, demoFinalResp] [] "q" =
      (some (demoFinalResp.message.content,
         [] ++ [mkUser "q", demoBadCallResp.message,
           ⟨Role.tool, "Error: " ++ "bad tool", []⟩, demoFinalResp.message]),
       [[] ++ [mkUser "q"],
        [] ++ [mkUser "q", demoBadCallResp.message,
          ⟨Role.tool, "Error: " ++ "bad tool", []⟩]]) ∧
    geminiSendMessage demoExec [demoGCall, demoGFinal] "q" =
      some (demoGFinal.rtext,
        [gUser "q", gModel demoGCall.parts,
         gUser ("Error calling function " ++ "badtool" ++ ": " ++ "bad tool"),
         gModel demoGFinal.parts]) := by
  have h := tool_error_recovered_in_loop demoExec ⟨"badtool", []⟩ "bad tool"
    demoBadCallResp demoFinalResp [] "q" demoExec "badtool" [] []
    demoGCall demoGFinal "bad tool" "q" rfl rfl rfl rfl rfl rfl
  exact ⟨rfl, rfl, rfl, rfl, rfl, h.1, h.2⟩

/-! ## C4: the required-field set survives translation -/

/-- C4: for every ToolDescriptor, the Gemini-shaped declaration produced by
schema translation carries a required-field list equal to the descriptor's
required set exactly, and the Ollama-shaped declaration embeds the
descriptor's parameter schema — including its required list — verbatim. -/
theorem translated_required_set_preserved (t : ToolSchema)
    (d : GeminiFunctionDecl) (h : convertToolToGemini t = some d) :
    d.required = t.parameters.required?.getD [] ∧
    (convertToolToOllama t).function.parameters = t.parameters := by
  refine ⟨?_, rfl⟩
  unfold convertToolToGemini at h
  obtain ⟨props, hm, hd⟩ := Option.map_eq_some'.mp h
  rw [← hd]

/-- C4 witness: the `query_skus_by_fat` descriptor translates with required
list `["fat_value"]` under both backend shapes. -/
theorem translated_required_set_preserved_witness :
    convertToolToGemini skuSchema = some skuGeminiDecl ∧
    skuGeminiDecl.required = skuSchema.parameters.required?.getD [] ∧
    (convertToolToOllama skuSchema).function.parameters =
      skuSchema.parameters ∧
    skuGeminiDecl.required = ["fat_value"] := by
  have h := translated_required_set_preserved skuSchema skuGeminiDecl rfl
  exact ⟨rfl, h.1, h.2, rfl⟩

/-! ## C5: an absent enum constraint leaves the enum field unset -/

/-- C5: a parameter descriptor carrying no enum constraint translates to a
Gemini parameter schema whose enum field is not set at all (`none`, the
unset marker of `types.Schema`), never an empty or null enum value. -/
theorem absent_enum_omitted_in_gemini (ps : PropSchema)
    (g : GeminiPropSchema) (h1 : ps.enum? = none)
    (h2 : convertPropToGemini ps = some g) : g.genum = none := by
  unfold convertPropToGemini at h2
  obtain ⟨gt, hgt, hg⟩ := Option.map_eq_some'.mp h2
  rw [← hg]
  simp [pyTruthyEnum, h1]

/-- C5 witness: the enum-free `n` parameter of `query_skus_by_fat`
translates with no enum field. -/
theorem absent_enum_omitted_in_gemini_witness :
    skuNProp.enum? = none ∧
    convertPropToGemini skuNProp =
      some ⟨GType.INTEGER, "Number of results to return", none⟩ ∧
    (⟨GType.INTEGER, "Number of results to return", none⟩ :
      GeminiPropSchema).genum = none :=
  ⟨rfl, rfl,
   absent_enum_omitted_in_gemini skuNProp
     ⟨GType.INTEGER, "Number of results to return", none⟩ rfl rfl⟩

/-! ## C9: listed chocolate products always carry the expected prefix -/

/-- C9: for a successful `query_chocolate_products` call whose chocolate
type has an entry in `prefix_map`, every listed entry's Material_Code
starts with the expected prefix (step 4 filters on exactly that), so the
per-entry validation mark is always the success mark `"✓"`. -/
theorem chocolate_entries_pfx_valid (rows : List Row) (n : Int)
    (ct mt pfx : String) (h : pfxMap.lookup ct = some pfx) :
    (chocoListed n ct mt pfx rows).all (chocoEntryValid pfx) = true := by
  rw [List.all_eq_true]
  intro r hr
  have hr2 : r ∈ chocoFiltered ct mt pfx rows := by
    unfold chocoListed pdHead at hr
    split at hr
    · exact List.mem_of_mem_take hr
    · exact List.mem_of_mem_take hr
  have h4 : chocoCodeOk pfx r = true := (List.mem_filter.mp hr2).2
  unfold chocoEntryValid
  rw [h4, Bool.true_and]
  unfold chocoCodeOk at h4
  unfold chocoMark
  cases hmc : r.material_code with
  | none => rw [hmc] at h4; exact absurd h4 (by simp)
  | some mc =>
    rw [hmc] at h4
    simp at h4
    simp [h4]

/-- C9 witness: on the demo dataset all three listed dark-chocolate
entries carry the `CHD-` prefix and the success mark. -/
theorem chocolate_entries_pfx_valid_witness :
    pfxMap.lookup "Dark" = some "CHD-" ∧
    (chocoListed 5 "Dark" "callets" "CHD-" demoRows).length = 3 ∧
    (chocoListed 5 "Dark" "callets" "CHD-" demoRows).all
      (chocoEntryValid "CHD-") = true :=
  ⟨rfl, rfl, chocolate_entries_pfx_valid demoRows 5 "Dark" "callets" "CHD-" rfl⟩

/-! ## C10: truncation and header count of query_skus_by_fat -/

/-- C10: for every `query_skus_by_fat` call with a present fat threshold, a
valid operator, and effective `n >= 0`: at most `n` SKU entries are listed;
the returned text is either the zero-results message or the report whose
header count is the length of the listed (truncated) result list, not of
the full filtered dataset; and forcing `n = 0` on the same arguments yields
the zero-results message even when matching rows exist. -/
theorem sku_truncation_and_header_count (rows : List Row)
    (args : ToolArguments) (fv : Rat)
    (h1 : args.fat_value = some fv)
    (h2 : opValid (args.operator.getD ">") = true)
    (h3 : 0 ≤ args.n.getD 10) :
    (skuListed (args.n.getD 10) (args.operator.getD ">") fv rows).length ≤
      (args.n.getD 10).toNat ∧
    querySkusByFat rows args =
      (if (skuListed (args.n.getD 10) (args.operator.getD ">") fv
            rows).isEmpty
       then Except.ok [skuNoResultText (args.operator.getD ">") fv]
       else Except.ok [skuReportText (args.operator.getD ">") fv
         (skuListed (args.n.getD 10) (args.operator.getD ">") fv rows)]) ∧
    querySkusByFat rows { args with n := some 0 } =
      Except.ok [skuNoResultText (args.operator.getD ">") fv] := by
  refine ⟨?_, ?_, ?_⟩
  · unfold skuListed pdHead
    rw [if_pos h3]
    exact List.length_take_le _ _
  · simp [querySkusByFat, h1, h2]
  · simp [querySkusByFat, h1, h2, skuListed, pdHead]

/-- C10 witness: the demo dataset has 3 matching rows; with `n = 2` only 2
entries are listed (and the header counts 2, not 3), and forcing `n = 0`
yields the zero-results message although matches exist. -/
theorem sku_truncation_and_header_count_witness :
    skuArgs2.fat_value = some 30 ∧
    opValid (skuArgs2.operator.getD ">") = true ∧
    0 ≤ skuArgs2.n.getD 10 ∧
    (skuFiltered ">" 30 demoRows).length = 3 ∧
    (skuListed (skuArgs2.n.getD 10) (skuArgs2.operator.getD ">") 30
      demoRows).length ≤ (skuArgs2.n.getD 10).toNat ∧
    querySkusByFat demoRows skuArgs2 =
      (if (skuListed (skuArgs2.n.getD 10) (skuArgs2.operator.getD ">") 30
            demoRows).isEmpty
       then Except.ok [skuNoResultText (skuArgs2.operator.getD ">") 30]
       else Except.ok [skuReportText (skuArgs2.operator.getD ">") 30
         (skuListed (skuArgs2.n.getD 10) (skuArgs2.operator.getD ">") 30
           demoRows)]) ∧
    querySkusByFat demoRows { skuArgs2 with n := some 0 } =
      Except.ok [skuNoResultText (skuArgs2.operator.getD ">") 30] := by
  have h := sku_truncation_and_header_count demoRows skuArgs2 30 rfl rfl
    (by decide)
  exact ⟨rfl, rfl, by decide, rfl, h.1, h.2.1, h.2.2⟩

/-! ## C8: no dangling unresolved tool call -/

theorem processCalls_eq (exec : String → Args → Except String String)
    (calls : List ToolCall) : ∀ msgs,
    processCalls exec msgs calls =
      msgs ++ calls.map (renderToolResult exec) := by
  induction calls with
  | nil => intro msgs; simp [processCalls]
  | cons tc rest ih =>
    intro msgs
    calc processCalls exec msgs (tc :: rest)
        = processCalls exec (msgs ++ [renderToolResult exec tc]) rest := rfl
      _ = (msgs ++ [renderToolResult exec tc]) ++
            rest.map (renderToolResult exec) := ih _
      _ = msgs ++ (tc :: rest).map (renderToolResult exec) := by simp

theorem render_tool_calls_nil (exec : String → Args → Except String String)
    (tc : ToolCall) : (renderToolResult exec tc).tool_calls = [] := by
  unfold renderToolResult
  cases exec tc.name tc.args <;> rfl

theorem resolved_append_block (exec : String → Args → Except String String)
    (l : List Msg) (m : Msg) (h : Resolved exec l) :
    Resolved exec (l ++ m :: m.tool_calls.map (renderToolResult exec)) := by
  intro i x hx
  rcases Nat.lt_trichotomy i l.length with hi | hi | hi
  · have hx' : l.get? i = some x := by rwa [List.get?_append hi] at hx
    have heq := h i x hx'
    have hk : x.tool_calls.length ≤ (l.drop (i + 1)).length := by
      have hlen := congrArg List.length heq
      rw [List.length_take, List.length_map] at hlen
      exact min_eq_left_iff.mp hlen
    have hdrop : (l ++ m :: m.tool_calls.map (renderToolResult exec)).drop
        (i + 1) = l.drop (i + 1) ++
          m :: m.tool_calls.map (renderToolResult exec) := by
      rw [List.drop_append_eq_append_drop,
        Nat.sub_eq_zero_of_le (Nat.succ_le_of_lt hi), List.drop_zero]
    rw [hdrop, List.take_append_eq_append_take,
      Nat.sub_eq_zero_of_le hk, List.take_zero, List.append_nil]
    exact heq
  · subst hi
    have hx' : m = x := by
      rw [List.get?_append_right (le_refl l.length), Nat.sub_self] at hx
      exact Option.some.inj hx
    subst hx'
    rw [List.drop_append_eq_append_drop,
      List.drop_eq_nil_of_le (by omega), List.nil_append]
    have h1 : l.length + 1 - l.length = 1 := by omega
    rw [h1]
    simp only [List.drop_succ_cons, List.drop_zero]
    exact List.take_of_length_le (by rw [List.length_map])
  · have hge : l.length ≤ i := le_of_lt hi
    rw [List.get?_append_right hge] at hx
    obtain ⟨j, hj⟩ : ∃ j, i - l.length = j + 1 := ⟨i - l.length - 1, by omega⟩
    rw [hj, List.get?_cons_succ] at hx
    have hxmem : x ∈ m.tool_calls.map (renderToolResult exec) :=
      List.get?_mem hx
    obtain ⟨tc, _, hxr⟩ := List.mem_map.mp hxmem
    have hcalls : x.tool_calls = [] := by
      rw [← hxr]; exact render_tool_calls_nil exec tc
    rw [hcalls]
    simp

theorem resolved_append_single (exec : String → Args → Except String String)
    (l : List Msg) (m : Msg) (hm : m.tool_calls = [])
    (h : Resolved exec l) : Resolved exec (l ++ [m]) := by
  have h2 := resolved_append_block exec l m h
  rw [hm] at h2
  simpa using h2

theorem sendLoop_resolved (exec : String → Args → Except String String)
    (script : List Resp) : ∀ (msgs : List Msg) (rm : Msg),
    Resolved exec msgs →
    (∀ qs ∈ (sendLoop exec script msgs rm).2, Resolved exec qs) ∧
    (∀ t fin, (sendLoop exec script msgs rm).1 = some (t, fin) →
      Resolved exec fin) := by
  induction script with
  | nil =>
    intro msgs rm h
    by_cases hc : rm.tool_calls.isEmpty = true
    · rw [sendLoop, if_pos hc]
      refine ⟨by intro qs hqs; simp at hqs, ?_⟩
      intro t fin hf
      simp at hf
      rw [← hf.2]
      exact resolved_append_single exec msgs rm (List.isEmpty_iff.mp hc) h
    · rw [sendLoop, if_neg hc]
      refine ⟨?_, by intro t fin hf; simp at hf⟩
      intro qs hqs
      simp at hqs
      subst hqs
      rw [processCalls_eq]
      have h2 := resolved_append_block exec msgs rm h
      simpa [List.append_assoc] using h2
  | cons r rest ih =>
    intro msgs rm h
    by_cases hc : rm.tool_calls.isEmpty = true
    · rw [sendLoop, if_pos hc]
      refine ⟨by intro qs hqs; simp at hqs, ?_⟩
      intro t fin hf
      simp at hf
      rw [← hf.2]
      exact resolved_append_single exec msgs rm (List.isEmpty_iff.mp hc) h
    · rw [sendLoop, if_neg hc]
      have hmsgs1 : Resolved exec
          (processCalls exec (msgs ++ [rm]) rm.tool_calls) := by
        rw [processCalls_eq]
        have h2 := resolved_append_block exec msgs rm h
        simpa [List.append_assoc] using h2
      obtain ⟨ih1, ih2⟩ :=
        ih (processCalls exec (msgs ++ [rm]) rm.tool_calls) r.message hmsgs1
      constructor
      · intro qs hqs
        simp at hqs
        rcases hqs with hqs | hqs
        · subst hqs; exact hmsgs1
        · exact ih1 qs hqs
      · intro t fin hf
        simp at hf
        exact ih2 t fin hf

theorem ollamaSend_resolved (exec : String → Args → Except String String)
    (script : List Resp) (history : List Msg) (text : String)
    (h : Resolved exec history) :
    (∀ qs ∈ (ollamaSendMessage exec script history text).2,
      Resolved exec qs) ∧
    (∀ t fin, (ollamaSendMessage exec script history text).1 =
        some (t, fin) → Resolved exec fin) := by
  have h0 : Resolved exec (history ++ [mkUser text]) :=
    resolved_append_single exec history (mkUser text) rfl h
  cases script with
  | nil =>
    rw [ollamaSendMessage]
    refine ⟨?_, by intro t fin hf; simp at hf⟩
    intro qs hqs
    simp at hqs
    subst hqs
    exact h0
  | cons r rest =>
    rw [ollamaSendMessage]
    obtain ⟨h1, h2⟩ := sendLoop_resolved exec rest (history ++ [mkUser text])
      r.message h0
    constructor
    · intro qs hqs
      simp at hqs
      rcases hqs with hqs | hqs
      · subst hqs; exact h0
      · exact h1 qs hqs
    · intro t fin hf
      simp at hf
      exact h2 t fin hf

theorem resolvedCheck_iff (exec : String → Args → Except String String)
    (msgs : List Msg) :
    resolvedCheck exec msgs = true ↔ Resolved exec msgs := by
  unfold resolvedCheck
  rw [List.all_eq_true]
  constructor
  · intro h i m hm
    have hi : i < msgs.length := (List.get?_eq_some.mp hm).1
    have h2 := h i (List.mem_range.mpr hi)
    unfold msgResolvedAt at h2
    rw [hm] at h2
    exact of_decide_eq_true h2
  · intro h i _
    unfold msgResolvedAt
    cases hm : msgs.get? i with
    | none => rfl
    | some m => exact decide_eq_true (h i m hm)

/-- C8: in every conversation state the Ollama loop presents to a model
query — and in the final state — each assistant message carrying tool-call
requests is immediately followed by exactly one tool-role message per
request, in order, holding that call's result text or error rendering;
hence no model query ever observes a dangling unresolved tool call. The
`resolvedCheck` hypothesis states the same invariant for the incoming
history. -/
theorem no_dangling_tool_calls (exec : String → Args → Except String String)
    (script : List Resp) (history : List Msg) (text : String)
    (h : resolvedCheck exec history = true) :
    queryStatesCheck exec script history text = true := by
  have hres := (resolvedCheck_iff exec history).mp h
  obtain ⟨h1, h2⟩ := ollamaSend_resolved exec script history text hres
  unfold queryStatesCheck
  rw [Bool.and_eq_true]
  constructor
  · rw [List.all_eq_true]
    intro qs hqs
    exact (resolvedCheck_iff exec qs).mpr (h1 qs hqs)
  · cases hp : (ollamaSendMessage exec script history text).1 with
    | none => rfl
    | some pr =>
      exact (resolvedCheck_iff exec pr.2).mpr (h2 pr.1 pr.2 (by rw [hp]))

/-- C8 witness: a concrete two-turn run (one tool call, then a final
answer) from an empty history keeps every query state and the final state
free of dangling tool calls. -/
theorem no_dangling_tool_calls_witness :
    resolvedCheck demoExec [] = true ∧
    queryStatesCheck demoExec [demoCallResp, demoFinalResp] [] "hello" =
      true :=
  ⟨rfl, no_dangling_tool_calls demoExec [demoCallResp, demoFinalResp] []
    "hello" rfl⟩
